import Mathlib

/-!
Verification of the Job Lifecycle and Model Resolution subsystem of the
AIPowerGrid system-core repository.

The Python sources are shallowly embedded:
  - `horde/classes/base/processing_generation.py` (class `ProcessingGeneration`),
  - `horde/model_reference_blockchain.py` (class `ModelReference`),
  - `scripts/monitor_queues.py` (functions `check_stuck_jobs` and `main`).

Conventions: machine integers become `Int`/`Nat`; timestamps become integer
epoch seconds; Python `None` becomes `Option.none`; Python dicts become
association lists with latest-insert-wins lookup; Python sets become lists
compared up to membership. Database commits and logging are state-neutral in
the source and are dropped. Worker and waiting-prompt methods called from
`processing_generation.py` are defined in classes outside the extracted
sources; those few are modelled from the spec and marked as such.
-/

/-- Replacement character U+FFFD, the Python literal used in
`ProcessingGeneration.set_generation` to replace NUL bytes. -/
def replacementChar : Char := Char.ofNat 0xFFFD

/-- Embeds the sanitisation step of `ProcessingGeneration.set_generation`:
the Python `generation.replace` call with a single-character NUL pattern and
the single-character replacement U+FFFD, which is exactly a character-wise map. -/
def sanitize (s : String) : String :=
  ⟨s.data.map (fun c => if c = Char.ofNat 0 then replacementChar else c)⟩

/-- Decidable test used to state claims about control characters reaching
storage: C0 controls (U+0000 through U+001F) and DEL (U+007F). -/
def containsControl (s : String) : Bool :=
  s.data.any (fun c => decide (c.toNat < 32) || decide (c.toNat = 127))

/-- Decidable test for a NUL character in a string. -/
def containsNul (s : String) : Bool :=
  s.data.any (fun c => decide (c = Char.ofNat 0))

/-- Worker row as seen from `processing_generation.py`: the fields read there
(`speed`, `user`, advertised model names) plus a ledger recording the effect
of the worker methods it calls. -/
structure Worker where
  speed : Int
  bridge_kudos_multiplier : Int
  user : Nat
  model_names : List String
  kudos_ledger : Int
  things_ledger : Int
  last_recorded_tps : Option Int
  aborted_jobs : Nat
deriving Repr, DecidableEq

/-- Waiting-prompt (parent request) row as seen from
`processing_generation.py`: `kudos`, `things`, owning `user`, the requested
model names, plus a usage ledger for `record_usage`. -/
structure WaitingPrompt where
  kudos : Int
  things : Int
  user : Nat
  model_names : List String
  usage_kudos : Int
  usage_things : Int
deriving Repr, DecidableEq

/-- Modelled from the spec: `Worker.record_contribution` is defined in the
worker classes outside the extracted sources. The spec says a completion or
cancellation "records contribution to both worker and parent-request
aggregates" and "records source stats" from the given throughput, so the model
adds the kudos and raw things to the worker ledger and remembers the
throughput value passed in. -/
def record_contribution (w : Worker) (raw_things kudos things_per_sec : Int) : Worker :=
  { w with
    kudos_ledger := w.kudos_ledger + kudos
    things_ledger := w.things_ledger + raw_things
    last_recorded_tps := some things_per_sec }

/-- Modelled from the spec: `Worker.log_aborted_job` is defined outside the
extracted sources. The spec says `Abort` "credits no reward" and only
logs/notifies, so the model increments an abort counter and touches no kudos. -/
def log_aborted_job (w : Worker) : Worker :=
  { w with aborted_jobs := w.aborted_jobs + 1 }

/-- Modelled from the spec: `WaitingPrompt.record_usage` is defined outside
the extracted sources. The spec says completion "records contribution to ...
parent-request aggregates", so the model accumulates the kudos and raw things
passed to it. -/
def record_usage (wp : WaitingPrompt) (raw_things kudos : Int) : WaitingPrompt :=
  { wp with
    usage_kudos := wp.usage_kudos + kudos
    usage_things := wp.usage_things + raw_things }

/-- Columns of the `processing_gens` row that the lifecycle operations touch,
mirroring the SQLAlchemy model in `processing_generation.py`. -/
structure ProcessingGeneration where
  generation : Option String
  seed : Option Int
  gen_metadata : Option (List String)
  tags : Option (List String)
  r2_download_url : Option String
  file_size : Option Int
  model : String
  cancelled : Bool
  faulted : Bool
  fake : Bool
  censored : Bool
  job_ttl : Int
  progress_percent : Int
  current_step : Int
  total_steps : Int
  progress_updated_at : Option Int
  start_time : Int
deriving Repr, DecidableEq

/-- One job together with its related worker and waiting-prompt rows
(`self.worker` and `self.wp` relationships in the source). -/
structure JobState where
  gen : ProcessingGeneration
  worker : Worker
  wp : WaitingPrompt
deriving Repr, DecidableEq

/-- Embeds `ProcessingGeneration.is_completed`: true iff a generation payload
is present. -/
def is_completed (g : ProcessingGeneration) : Bool :=
  g.generation.isSome

/-- Embeds `ProcessingGeneration.is_faulted`. -/
def is_faulted (g : ProcessingGeneration) : Bool :=
  g.faulted

/-- Terminal per the spec: completed or faulted. The source writes the same
disjunction inline as `self.is_completed() or self.is_faulted()`. -/
def is_terminal (g : ProcessingGeneration) : Bool :=
  is_completed g || is_faulted g

/-- Embeds `ProcessingGeneration.get_gen_kudos`, which returns `self.wp.kudos`. -/
def get_gen_kudos (s : JobState) : Int :=
  s.wp.kudos

/-- Embeds `ProcessingGeneration.adjust_user_kudos`: censorship zeroes the
requester-side kudos. -/
def adjust_user_kudos (g : ProcessingGeneration) (kudos : Int) : Int :=
  if g.censored then 0 else kudos

/-- Embeds `ProcessingGeneration.record`: the worker contribution is recorded
on both branches; the parent-request usage is recorded unless the job is fake
and owned by the same user as the worker. -/
def record (s : JobState) (things_per_sec kudos : Int) : JobState :=
  if s.gen.fake && (s.worker.user == s.wp.user) then
    { s with worker := record_contribution s.worker s.wp.things kudos things_per_sec }
  else
    { s with
      worker := record_contribution s.worker s.wp.things kudos things_per_sec
      wp := record_usage s.wp s.wp.things (adjust_user_kudos s.gen kudos) }

/-- Keyword arguments of `set_generation` that land in columns. -/
structure GenKwargs where
  seed : Option Int
  gen_metadata : Option (List String)
  tags : Option (List String)
  r2_download_url : Option String
  file_size : Option Int
deriving Repr, DecidableEq

/-- Embeds `ProcessingGeneration.set_generation`. Returns the new state and
the returned integer: 0 if already completed, -1 if already faulted, otherwise
the credited kudos. The webhook send has no effect on the job state and is
dropped. -/
def set_generation (s : JobState) (generation : String) (things_per_sec : Int)
    (kw : GenKwargs) : JobState × Int :=
  if is_completed s.gen then (s, 0)
  else if is_faulted s.gen then (s, -1)
  else
    let g1 := { s.gen with
      generation := some (sanitize generation)
      seed := kw.seed
      gen_metadata := kw.gen_metadata
      tags := kw.tags
      r2_download_url := kw.r2_download_url
      file_size := kw.file_size }
    let kudos := get_gen_kudos s
    let g2 := { g1 with cancelled := false }
    (record { s with gen := g2 } things_per_sec kudos, kudos)

/-- Embeds `ProcessingGeneration.cancel`. Returns the new state and the
returned value: `none` (Python `None`) if already terminal, otherwise the
kudos multiplied by the worker bridge multiplier. The throughput recorded is
`self.worker.speed`. -/
def cancel (s : JobState) : JobState × Option Int :=
  if is_completed s.gen || is_faulted s.gen then (s, none)
  else
    let g1 := { s.gen with faulted := true }
    let things_per_sec := s.worker.speed
    let kudos := get_gen_kudos s
    let g2 := { g1 with cancelled := true }
    let s1 := record { s with gen := g2 } things_per_sec kudos
    (s1, some (kudos * s.worker.bridge_kudos_multiplier))

/-- Embeds `ProcessingGeneration.abort`: no-op when terminal, otherwise sets
`faulted`, logs the aborted job on the worker, and credits nothing. Python
returns `None` on every path, so the embedding returns only the state. -/
def abort (s : JobState) : JobState :=
  if is_completed s.gen || is_faulted s.gen then s
  else
    { s with
      gen := { s.gen with faulted := true }
      worker := log_aborted_job s.worker }

/-- Embeds `ProcessingGeneration.is_stale`: false when terminal, otherwise
true iff the elapsed seconds since `start_time` strictly exceed `job_ttl`. -/
def is_stale (now : Int) (g : ProcessingGeneration) : Bool :=
  if is_completed g || is_faulted g then false
  else decide (g.job_ttl < now - g.start_time)

/-- Embeds the model-selection branch of `ProcessingGeneration.__init__` taken
when no model is explicitly requested. `shuffle` stands for `random.shuffle`;
the result is element 0 of the shuffled candidate list, `none` when that list
is empty (the Python raises IndexError there). The provisional assignment of
`worker_models[0]` is overwritten on every non-raising path and is dropped. -/
def resolve_job_model (shuffle : List String → List String)
    (worker_models wp_models : List String) : Option String :=
  let matching1 := if wp_models.length ≠ 0 then
      wp_models.filter (fun m => decide (m ∈ worker_models))
    else worker_models
  let matching2 := if matching1.length = 0 then worker_models else matching1
  (shuffle matching2).head?

/- Sample states used by witnesses and counterexamples. -/

/-- Concrete worker for witness states. -/
def sampleWorker : Worker :=
  { speed := 7, bridge_kudos_multiplier := 2, user := 1,
    model_names := ["A", "B"], kudos_ledger := 5, things_ledger := 0,
    last_recorded_tps := none, aborted_jobs := 0 }

/-- Concrete waiting prompt for witness states. -/
def sampleWP : WaitingPrompt :=
  { kudos := 10, things := 3, user := 2, model_names := ["B", "C"],
    usage_kudos := 0, usage_things := 0 }

/-- Fresh (pending) job row: no generation payload, not faulted. -/
def freshGen : ProcessingGeneration :=
  { generation := none, seed := none, gen_metadata := none, tags := none,
    r2_download_url := none, file_size := none, model := "A",
    cancelled := false, faulted := false, fake := false, censored := false,
    job_ttl := 86400, progress_percent := 0, current_step := 0,
    total_steps := 0, progress_updated_at := none, start_time := 0 }

/-- Fresh job state. -/
def freshJob : JobState :=
  { gen := freshGen, worker := sampleWorker, wp := sampleWP }

/-- Completed job state (payload present). -/
def completedJob : JobState :=
  { freshJob with gen := { freshGen with generation := some "done" } }

/-- Faulted (not completed) job state. -/
def faultedJob : JobState :=
  { freshJob with gen := { freshGen with faulted := true } }

/-- Empty keyword-argument record. -/
def noKwargs : GenKwargs :=
  { seed := none, gen_metadata := none, tags := none,
    r2_download_url := none, file_size := none }

/-- Payload holding the single control character U+0001. -/
def ctrlPayload : String := ⟨[Char.ofNat 1]⟩

/- Model resolver: `horde/model_reference_blockchain.py`. -/

/-- One entry of the models dict built by `_fetch_models_from_chain` or read
from the cache or legacy file, restricted to the keys that the
`ModelReference` lookups consult. -/
structure ModelRecord where
  baseline : String
  nsfw : Bool
  controlnet : Bool
  lora : Bool
  inpainting : Bool
  type_str : String
  style : String
deriving Repr, DecidableEq

/-- Embeds the `valid_baselines` set literal in
`ModelReference._populate_from_dict`. -/
def valid_baselines : List String :=
  ["stable diffusion 1", "stable diffusion 2", "stable diffusion 2 512",
   "stable_diffusion_xl", "stable_cascade", "flux_1",
   "wan_2_1", "wan_2_2", "ltx_video", "cogvideo", "mochi"]

/-- Embeds Python str.lower on model names. Core Lean String.toLower maps
Char.toLower over the characters through byte positions, which the kernel
cannot evaluate; this equivalent definition maps over the character list so
that concrete instances reduce. -/
def strLower (s : String) : String :=
  ⟨s.data.map Char.toLower⟩

/-- Python `set.add`, on lists up to membership. -/
def setAdd (l : List String) (x : String) : List String :=
  if x ∈ l then l else x :: l

/-- Python dict assignment `d[k] = v`: newest binding wins. -/
def dictInsert (l : List (String × String)) (k v : String) : List (String × String) :=
  (k, v) :: l

/-- Python `d.get(k)`: the newest binding for `k`, if any. -/
def dictGet : List (String × String) → String → Option String
  | [], _ => none
  | (k, v) :: rest, key => if key = k then some v else dictGet rest key

/-- The in-memory image-model state of class `ModelReference`:
`reference`, `stable_diffusion_names`, `nsfw_models`, `controlnet_models`
and the lowercase `_name_lookup` index. The text-model fields are refreshed
by a separate loader and are outside the claims, so they are not embedded. -/
structure ModelReference where
  reference : List (String × ModelRecord)
  stable_diffusion_names : List String
  nsfw_models : List String
  controlnet_models : List String
  name_lookup : List (String × String)
deriving Repr, DecidableEq

/-- Body of the `for name, model in models.items()` loop of
`ModelReference._populate_from_dict`, applied to one entry. -/
def populate_step (acc : ModelReference) (entry : String × ModelRecord) : ModelReference :=
  let acc1 := if entry.2.baseline ∈ valid_baselines then
      { acc with
        stable_diffusion_names := setAdd acc.stable_diffusion_names entry.1
        name_lookup := dictInsert acc.name_lookup (strLower entry.1) entry.1 }
    else acc
  let acc2 := if entry.2.nsfw then
      { acc1 with nsfw_models := setAdd acc1.nsfw_models entry.1 }
    else acc1
  if entry.2.controlnet || (entry.2.type_str == "controlnet") then
    { acc2 with controlnet_models := setAdd acc2.controlnet_models entry.1 }
  else acc2

/-- Embeds `ModelReference._populate_from_dict`: resets the derived sets and
the lowercase index, sets `reference` to the given dict, then folds the loop
body over its entries. -/
def populate_from_dict (st : ModelReference) (models : List (String × ModelRecord)) :
    ModelReference :=
  models.foldl populate_step
    { st with
      reference := models
      stable_diffusion_names := []
      nsfw_models := []
      controlnet_models := []
      name_lookup := [] }

/-- Embeds the image-model part of `ModelReference.call_function`.
Inputs stand for the three sources: the dict returned by
`_fetch_models_from_chain` (empty on any fetch failure), the models dict of
the cache file as read by `_load_cache` (`none` when the file is missing or
unreadable), and the dict returned by `_load_legacy_json` (empty when
missing). Returns the new state and the new content of the cache file
(`none` when the file is left unchanged). Python dict truthiness is
non-emptiness. -/
def call_function (st : ModelReference)
    (chain_models : List (String × ModelRecord))
    (cache_file : Option (List (String × ModelRecord)))
    (legacy_models : List (String × ModelRecord)) :
    ModelReference × Option (List (String × ModelRecord)) :=
  if chain_models.isEmpty = false then
    (populate_from_dict st chain_models, some chain_models)
  else
    let cached_models := cache_file.getD []
    if cached_models.isEmpty = false then
      (populate_from_dict st cached_models, none)
    else if legacy_models.isEmpty = false then
      (populate_from_dict st legacy_models, none)
    else
      ({ st with reference := [], stable_diffusion_names := [] }, none)

/-- Embeds `ModelReference.normalize_model_name`: exact match against
`stable_diffusion_names` first, then the precomputed lowercase index. -/
def normalize_model_name (st : ModelReference) (model_name : String) : Option String :=
  if model_name ∈ st.stable_diffusion_names then some model_name
  else dictGet st.name_lookup (strLower model_name)

/-- Embeds `ModelReference.is_known_image_model`. -/
def is_known_image_model (st : ModelReference) (model_name : String) : Bool :=
  (normalize_model_name st model_name).isSome

/- Queue health monitor: `scripts/monitor_queues.py`. -/

/-- Configuration constant `STUCK_THRESHOLD_MINUTES` of the monitor script. -/
def STUCK_THRESHOLD_MINUTES : Int := 10

/-- Configuration constant `ALERT_THRESHOLD` of the monitor script. -/
def ALERT_THRESHOLD : Nat := 5

/-- One `processing_gens` row as the monitor query sees it: the model name
and the `created` timestamp (epoch seconds). -/
structure ProcessingGenRow where
  model : String
  created : Int
deriving Repr, DecidableEq

/-- Embeds the total stuck count of `check_stuck_jobs`: the SQL selects rows
with `created < NOW() - INTERVAL STUCK_THRESHOLD_MINUTES minutes`, groups by
model and sums the per-group counts into `total_stuck`; the total is the
number of rows passing the age filter. -/
def check_stuck_jobs (now : Int) (jobs : List ProcessingGenRow) : Nat :=
  (jobs.filter (fun j => decide (j.created < now - STUCK_THRESHOLD_MINUTES * 60))).length

/-- Embeds the alert and exit-code logic of `main` in the monitor script:
one Discord stuck-jobs alert is sent iff the stuck count reaches
`ALERT_THRESHOLD` and alerts are not suppressed by the no-alert flag, and the
process exits 1 iff the stuck count reaches `ALERT_THRESHOLD` (else 0).
Returns (number of stuck-jobs alert events sent, exit code). -/
def monitor_main (now : Int) (jobs : List ProcessingGenRow) (no_alert : Bool) :
    Nat × Nat :=
  let stuck_count := check_stuck_jobs now jobs
  let alerts_sent := if ALERT_THRESHOLD ≤ stuck_count ∧ no_alert = false then 1 else 0
  let exit_code := if ALERT_THRESHOLD ≤ stuck_count then 1 else 0
  (alerts_sent, exit_code)

/- Helper lemmas shared by several developments below. -/

/-- Head element of a list is a member. -/
theorem mem_of_head_eq_some {l : List String} {a : String} (h : l.head? = some a) :
    a ∈ l := by
  cases l with
  | nil => cases h
  | cons x xs =>
    have hx : x = a := by simpa using h
    subst hx
    exact List.mem_cons_self x xs

/-- A list permuted from a non-empty list is non-empty. -/
theorem perm_ne_nil {l1 l2 : List String} (hp : List.Perm l1 l2) (h : l2 ≠ []) :
    l1 ≠ [] := by
  intro he
  subst he
  exact h (List.nil_perm.mp hp)

/-- A non-empty list has a head. -/
theorem head_isSome_of_ne_nil {l : List String} (h : l ≠ []) :
    ∃ m, l.head? = some m := by
  cases l with
  | nil => exact absurd rfl h
  | cons x xs => exact ⟨x, rfl⟩

/-- The state-update part of `record` never touches the generation row. -/
theorem record_gen (s : JobState) (tps kudos : Int) :
    (record s tps kudos).gen = s.gen := by
  unfold record
  split <;> rfl

/-- The worker ledger update of `record` is the same on both branches. -/
theorem record_worker (s : JobState) (tps kudos : Int) :
    (record s tps kudos).worker = record_contribution s.worker s.wp.things kudos tps := by
  unfold record
  split <;> rfl

/-- C1: for every job that is already terminal (completed or faulted), a
further `set_generation`, `cancel`, or `abort` call is a no-op returning the
defined sentinel (0 for a completed job and -1 for a faulted one from
`set_generation`; `None` from `cancel` and `abort`) and leaves every job
field unchanged. -/
theorem C1_terminal_noop (s : JobState) (payload : String) (tps : Int) (kw : GenKwargs)
    (h : is_terminal s.gen = true) :
    set_generation s payload tps kw = (s, if is_completed s.gen then 0 else -1)
    ∧ cancel s = (s, none)
    ∧ abort s = s := by
  by_cases hc : is_completed s.gen = true
  · simp [set_generation, cancel, abort, hc]
  · have hc' : is_completed s.gen = false := by simpa using hc
    have hf : is_faulted s.gen = true := by
      simpa [is_terminal, hc'] using h
    simp [set_generation, cancel, abort, hc', hf]

/-- Witness for C1 at a concrete completed job. -/
theorem C1_witness :
    set_generation completedJob "x" 1 noKwargs = (completedJob, 0)
    ∧ cancel completedJob = (completedJob, none)
    ∧ abort completedJob = completedJob := by
  have h := C1_terminal_noop completedJob "x" 1 noKwargs (by decide)
  have hc : is_completed completedJob.gen = true := by decide
  simpa [hc] using h

/-- C2: on a non-terminal job, `cancel` returns the completion kudos
(`get_gen_kudos`) multiplied by the worker bridge multiplier, which is
non-negative when those inputs are; it credits the worker ledger with the
same kudos a normal completion credits, recording the worker's last-known
throughput `worker.speed`, and sets both `faulted` and `cancelled`. `abort`
credits exactly zero kudos and sets `faulted` only. -/
theorem C2_cancel_abort_rewards (s : JobState) (payload : String) (tps : Int)
    (kw : GenKwargs)
    (h : is_terminal s.gen = false)
    (hk : 0 ≤ s.wp.kudos) (hm : 0 ≤ s.worker.bridge_kudos_multiplier) :
    (cancel s).2 = some (get_gen_kudos s * s.worker.bridge_kudos_multiplier)
    ∧ (∀ k, (cancel s).2 = some k → 0 ≤ k)
    ∧ (cancel s).1.gen.faulted = true
    ∧ (cancel s).1.gen.cancelled = true
    ∧ (cancel s).1.worker.kudos_ledger = s.worker.kudos_ledger + get_gen_kudos s
    ∧ (cancel s).1.worker.last_recorded_tps = some s.worker.speed
    ∧ (set_generation s payload tps kw).2 = get_gen_kudos s
    ∧ (abort s).gen.faulted = true
    ∧ (abort s).gen.cancelled = s.gen.cancelled
    ∧ (abort s).worker.kudos_ledger = s.worker.kudos_ledger
    ∧ (abort s).worker.aborted_jobs = s.worker.aborted_jobs + 1 := by
  have h' : (is_completed s.gen || is_faulted s.gen) = false := by
    simpa [is_terminal] using h
  have hc : is_completed s.gen = false := by
    rcases Bool.or_eq_false_iff.mp h' with ⟨h1, _⟩
    exact h1
  have hf : is_faulted s.gen = false := by
    rcases Bool.or_eq_false_iff.mp h' with ⟨_, h2⟩
    exact h2
  refine ⟨?_, ?_, ?_, ?_, ?_, ?_, ?_, ?_, ?_, ?_, ?_⟩
  · simp [cancel, h']
  · intro k hkk
    simp [cancel, h'] at hkk
    subst hkk
    exact mul_nonneg hk hm
  · simp [cancel, h', record_gen]
  · simp [cancel, h', record_gen]
  · simp [cancel, h', record_worker, record_contribution, get_gen_kudos]
  · simp [cancel, h', record_worker, record_contribution]
  · simp [set_generation, hc, hf]
  · simp [abort, h']
  · simp [abort, h']
  · simp [abort, h', log_aborted_job]
  · simp [abort, h', log_aborted_job]

/-- Witness for C2 at a concrete pending job. -/
theorem C2_witness :
    (cancel freshJob).2 = some 20 ∧ (abort freshJob).gen.faulted = true := by
  obtain ⟨h1, _, _, _, _, _, _, h8, _⟩ :=
    C2_cancel_abort_rewards freshJob "x" 1 noKwargs (by decide) (by decide) (by decide)
  refine ⟨?_, h8⟩
  rw [h1]
  decide

/-- C4: `is_stale` is true iff the job is non-terminal and the elapsed time
since its start strictly exceeds its TTL; once terminal it is false for every
clock value. -/
theorem C4_is_stale_iff (g : ProcessingGeneration) (now : Int) :
    (is_stale now g = true
        ↔ (is_terminal g = false ∧ g.job_ttl < now - g.start_time))
    ∧ (is_terminal g = true → ∀ later : Int, is_stale later g = false) := by
  by_cases ht : (is_completed g || is_faulted g) = true
  · constructor
    · simp [is_stale, is_terminal, ht]
    · intro _ later
      simp [is_stale, ht]
  · have ht' : (is_completed g || is_faulted g) = false := by simpa using ht
    constructor
    · simp [is_stale, is_terminal, ht']
    · intro hcontra
      rw [is_terminal, ht'] at hcontra
      cases hcontra

/-- Witness for C4: a pending job past its TTL is stale. -/
theorem C4_witness : is_stale 86500 freshGen = true := by
  exact (C4_is_stale_iff freshGen 86500).1.mpr ⟨by decide, by decide⟩

/-- C6 counterexample: `set_generation` replaces only NUL; the control
character U+0001 passes through sanitisation and reaches the stored
generation, contradicting the claim that no control character reaches
storage. -/
theorem C6_counterexample :
    (set_generation freshJob ctrlPayload 1 noKwargs).1.gen.generation
        = some ctrlPayload
    ∧ containsControl ctrlPayload = true := by
  constructor
  · decide
  · decide

/-- C6 (amended): for every payload on a non-terminal job, the stored
generation is the sanitised payload, and sanitisation removes every NUL
character (replacing it with U+FFFD); other control characters are not
removed. -/
theorem C6_no_nul_stored (s : JobState) (payload : String) (tps : Int) (kw : GenKwargs)
    (h : is_terminal s.gen = false) :
    (set_generation s payload tps kw).1.gen.generation = some (sanitize payload)
    ∧ containsNul (sanitize payload) = false := by
  have h' : (is_completed s.gen || is_faulted s.gen) = false := by
    simpa [is_terminal] using h
  have hc : is_completed s.gen = false := (Bool.or_eq_false_iff.mp h').1
  have hf : is_faulted s.gen = false := (Bool.or_eq_false_iff.mp h').2
  constructor
  · simp [set_generation, hc, hf, record_gen]
  · have hdata : (sanitize payload).data
        = payload.data.map (fun c => if c = Char.ofNat 0 then replacementChar else c) := rfl
    rw [containsNul, hdata, List.any_map, List.any_eq_false]
    intro c _
    by_cases hc0 : c = Char.ofNat 0
    · simp only [Function.comp, hc0, if_pos rfl]
      decide
    · simp [Function.comp, hc0]

/-- Witness for C6 at a concrete pending job and payload. -/
theorem C6_witness :
    (set_generation freshJob "ok" 1 noKwargs).1.gen.generation = some (sanitize "ok") := by
  exact (C6_no_nul_stored freshJob "ok" 1 noKwargs (by decide)).1

/-- C3: for every job created with no explicitly requested model (and any
shuffle behaviour of `random.shuffle`, modelled as an arbitrary permutation):
when the request list and its intersection with the worker models are
non-empty, the resolved model lies in both lists; when the request lists no
models or the intersection is empty, the resolved model lies in the worker
models. In particular worker models [A, B] with request models [B, C]
resolve to B, and worker models [A, B] with an empty request list resolve to
a member of [A, B], never to nothing. -/
theorem C3_model_resolution (shuffle : List String → List String)
    (hperm : ∀ l, List.Perm (shuffle l) l) :
    (∀ worker_models wp_models m,
      resolve_job_model shuffle worker_models wp_models = some m →
        ((wp_models ≠ []
            ∧ wp_models.filter (fun x => decide (x ∈ worker_models)) ≠ []) →
            m ∈ worker_models ∧ m ∈ wp_models)
        ∧ ((wp_models = []
            ∨ wp_models.filter (fun x => decide (x ∈ worker_models)) = []) →
            m ∈ worker_models))
    ∧ resolve_job_model shuffle ["A", "B"] ["B", "C"] = some "B"
    ∧ (∃ m, resolve_job_model shuffle ["A", "B"] [] = some m
         ∧ m ∈ (["A", "B"] : List String)) := by
  refine ⟨?_, ?_, ?_⟩
  · intro wm wpm m hres
    simp only [resolve_job_model] at hres
    by_cases h1 : wpm.length ≠ 0
    · rw [if_pos h1] at hres
      by_cases h2 : (wpm.filter (fun x => decide (x ∈ wm))).length = 0
      · rw [if_pos h2] at hres
        have hm : m ∈ wm := ((hperm wm).mem_iff).mp (mem_of_head_eq_some hres)
        constructor
        · rintro ⟨_, hF⟩
          exact absurd (List.length_eq_zero.mp h2) hF
        · intro _
          exact hm
      · rw [if_neg h2] at hres
        have hm : m ∈ wpm.filter (fun x => decide (x ∈ wm)) :=
          ((hperm _).mem_iff).mp (mem_of_head_eq_some hres)
        have hmem := List.mem_filter.mp hm
        constructor
        · intro _
          exact ⟨of_decide_eq_true hmem.2, hmem.1⟩
        · rintro (hwp | hF)
          · exact absurd (by rw [hwp]; rfl : wpm.length = 0) h1
          · rw [hF] at hm
            cases hm
    · have hwp0 : wpm = [] := List.length_eq_zero.mp (by omega)
      rw [if_neg h1] at hres
      have hid : (if wm.length = 0 then wm else wm) = wm := by
        split <;> rfl
      rw [hid] at hres
      have hm : m ∈ wm := ((hperm wm).mem_iff).mp (mem_of_head_eq_some hres)
      constructor
      · rintro ⟨hwp, _⟩
        exact absurd hwp0 hwp
      · intro _
        exact hm
  · have hfilter : (["B", "C"] : List String).filter
        (fun x => decide (x ∈ (["A", "B"] : List String))) = ["B"] := by decide
    have hs : shuffle ["B"] = ["B"] := List.perm_singleton.mp (hperm ["B"])
    simp only [resolve_job_model]
    rw [if_pos (by decide : (["B", "C"] : List String).length ≠ 0), hfilter,
        if_neg (by decide : ¬ (["B"] : List String).length = 0), hs]
    rfl
  · have hne : shuffle ["A", "B"] ≠ [] :=
      perm_ne_nil (hperm ["A", "B"]) (by decide)
    obtain ⟨m, hm⟩ := head_isSome_of_ne_nil hne
    refine ⟨m, ?_, ?_⟩
    · simp only [resolve_job_model]
      rw [if_neg (by decide : ¬ ([] : List String).length ≠ 0),
          if_neg (by decide : ¬ (["A", "B"] : List String).length = 0)]
      exact hm
    · exact ((hperm _).mem_iff).mp (mem_of_head_eq_some hm)

/-- Witness for C3 at the identity shuffle. -/
theorem C3_witness :
    resolve_job_model id ["A", "B"] ["B", "C"] = some "B" := by
  exact (C3_model_resolution id (fun l => List.Perm.refl l)).2.1

/-- C10: model resolution with no explicit model succeeds (the selection
index is in range) exactly when the worker advertises at least one model;
with an empty worker model list the selection list is empty and the source
raises an unhandled IndexError, modelled here as `none`. -/
theorem C10_empty_worker_models (shuffle : List String → List String)
    (hperm : ∀ l, List.Perm (shuffle l) l) :
    (∀ worker_models wp_models : List String, worker_models ≠ [] →
        ∃ m, resolve_job_model shuffle worker_models wp_models = some m)
    ∧ (∀ wp_models : List String, resolve_job_model shuffle [] wp_models = none) := by
  constructor
  · intro wm wpm hwm
    simp only [resolve_job_model]
    by_cases h1 : wpm.length ≠ 0
    · rw [if_pos h1]
      by_cases h2 : (wpm.filter (fun x => decide (x ∈ wm))).length = 0
      · rw [if_pos h2]
        exact head_isSome_of_ne_nil (perm_ne_nil (hperm wm) hwm)
      · rw [if_neg h2]
        have hF : wpm.filter (fun x => decide (x ∈ wm)) ≠ [] := by
          intro he
          exact h2 (by rw [he]; rfl)
        exact head_isSome_of_ne_nil (perm_ne_nil (hperm _) hF)
    · rw [if_neg h1]
      have hid : (if wm.length = 0 then wm else wm) = wm := by
        split <;> rfl
      rw [hid]
      exact head_isSome_of_ne_nil (perm_ne_nil (hperm wm) hwm)
  · intro wpm
    simp only [resolve_job_model]
    have hnil : shuffle ([] : List String) = [] := List.perm_nil.mp (hperm [])
    by_cases h1 : wpm.length ≠ 0
    · rw [if_pos h1]
      have hF : wpm.filter (fun x => decide (x ∈ ([] : List String))) = [] := by
        simp
      rw [hF, if_pos (show ([] : List String).length = 0 from rfl), hnil]
      rfl
    · rw [if_neg h1, if_pos (show ([] : List String).length = 0 from rfl), hnil]
      rfl

/-- Witness for C10 at the identity shuffle. -/
theorem C10_witness :
    resolve_job_model id [] ["Z"] = none
    ∧ resolve_job_model id ["A"] ["Z"] = some "A" := by
  refine ⟨(C10_empty_worker_models id (fun l => List.Perm.refl l)).2 ["Z"], ?_⟩
  decide

/-- One step of `_populate_from_dict` never touches the `reference` field. -/
theorem populate_step_reference (acc : ModelReference) (e : String × ModelRecord) :
    (populate_step acc e).reference = acc.reference := by
  simp only [populate_step]
  split_ifs <;> rfl

/-- The loop of `_populate_from_dict` never touches the `reference` field. -/
theorem foldl_populate_reference (models : List (String × ModelRecord)) :
    ∀ acc : ModelReference,
      (models.foldl populate_step acc).reference = acc.reference := by
  induction models with
  | nil =>
    intro acc
    rfl
  | cons e rest ih =>
    intro acc
    simp only [List.foldl_cons]
    rw [ih, populate_step_reference]

/-- After `_populate_from_dict` the in-memory snapshot equals the given dict. -/
theorem populate_reference (st : ModelReference) (models : List (String × ModelRecord)) :
    (populate_from_dict st models).reference = models := by
  simp only [populate_from_dict]
  rw [foldl_populate_reference]

/-- C7: one refresh tries live chain, then cache file, then bundled legacy
data, in order, until one is non-empty; the cache file is overwritten exactly
when the live tier is non-empty; and when the live source returns zero
entries while the cache file holds a non-empty snapshot, the post-refresh
in-memory snapshot equals that cached snapshot, not an empty set. With the
cache missing or empty, a non-empty legacy dataset is used; with all three
empty the snapshot is emptied. -/
theorem C7_refresh_fallback (st : ModelReference)
    (chain : List (String × ModelRecord))
    (cache : Option (List (String × ModelRecord)))
    (legacy : List (String × ModelRecord)) :
    (chain ≠ [] →
        call_function st chain cache legacy = (populate_from_dict st chain, some chain))
    ∧ (chain = [] → (call_function st chain cache legacy).2 = none)
    ∧ (∀ c, chain = [] → cache = some c → c ≠ [] →
        (call_function st chain cache legacy).1 = populate_from_dict st c
        ∧ (call_function st chain cache legacy).1.reference = c)
    ∧ (chain = [] → (cache = none ∨ cache = some []) → legacy ≠ [] →
        (call_function st chain cache legacy).1.reference = legacy)
    ∧ (chain = [] → (cache = none ∨ cache = some []) → legacy = [] →
        (call_function st chain cache legacy).1.reference = []) := by
  refine ⟨?_, ?_, ?_, ?_, ?_⟩
  · intro hchain
    have hne : chain.isEmpty = false := by
      simpa [List.isEmpty_iff] using hchain
    simp [call_function, hne]
  · intro hchain
    subst hchain
    simp only [call_function]
    split
    · simp_all
    · split
      · rfl
      · split <;> rfl
  · intro c hchain hcache hc
    subst hchain
    subst hcache
    have hce : c.isEmpty = false := by
      simpa [List.isEmpty_iff] using hc
    constructor
    · simp [call_function, hce]
    · simp [call_function, hce, populate_reference]
  · intro hchain hcache hleg
    subst hchain
    have hle : legacy.isEmpty = false := by
      simpa [List.isEmpty_iff] using hleg
    rcases hcache with hnone | hempty
    · subst hnone
      simp [call_function, hle, populate_reference]
    · subst hempty
      simp [call_function, hle, populate_reference]
  · intro hchain hcache hleg
    subst hchain
    subst hleg
    rcases hcache with hnone | hempty
    · subst hnone
      simp [call_function]
    · subst hempty
      simp [call_function]

/-- Empty resolver state for witnesses. -/
def mr0 : ModelReference :=
  { reference := [], stable_diffusion_names := [], nsfw_models := [],
    controlnet_models := [], name_lookup := [] }

/-- Concrete model record with a valid baseline, for witnesses. -/
def recA : ModelRecord :=
  { baseline := "flux_1", nsfw := false, controlnet := false, lora := false,
    inpainting := false, type_str := "checkpoint", style := "generalist" }

/-- Witness for C7: live source empty, cache non-empty; the snapshot comes
from the cache and the cache file is untouched. -/
theorem C7_witness :
    (call_function mr0 [] (some [("M", recA)]) []).1.reference = [("M", recA)]
    ∧ (call_function mr0 [] (some [("M", recA)]) []).2 = none := by
  refine ⟨((C7_refresh_fallback mr0 [] (some [("M", recA)]) []).2.2.1
      [("M", recA)] rfl rfl (by decide)).2, ?_⟩
  exact (C7_refresh_fallback mr0 [] (some [("M", recA)]) []).2.1 rfl

/-- Lookup after a dict insert stays defined when it was defined before. -/
theorem dictGet_insert_isSome (l : List (String × String)) (k k' v : String)
    (h : (dictGet l k).isSome = true) :
    (dictGet (dictInsert l k' v) k).isSome = true := by
  simp only [dictInsert, dictGet]
  split
  · rfl
  · exact h

/-- Lookup of the key just inserted. -/
theorem dictGet_insert_self (l : List (String × String)) (k v : String) :
    dictGet (dictInsert l k v) k = some v := by
  simp [dictInsert, dictGet]

/-- Invariant tying `stable_diffusion_names` to the lowercase index: every
registered name has a lowercase alias entry. `_populate_from_dict` builds
both in lockstep. -/
def LookupInv (acc : ModelReference) : Prop :=
  ∀ x ∈ acc.stable_diffusion_names,
    (dictGet acc.name_lookup (strLower x)).isSome = true

/-- Effect of one populate step on the registered-name set. -/
theorem populate_step_sd (acc : ModelReference) (e : String × ModelRecord) :
    (populate_step acc e).stable_diffusion_names
      = (if e.2.baseline ∈ valid_baselines then
            setAdd acc.stable_diffusion_names e.1
         else acc.stable_diffusion_names) := by
  simp only [populate_step]
  split_ifs <;> rfl

/-- Effect of one populate step on the lowercase index. -/
theorem populate_step_lookup (acc : ModelReference) (e : String × ModelRecord) :
    (populate_step acc e).name_lookup
      = (if e.2.baseline ∈ valid_baselines then
            dictInsert acc.name_lookup (strLower e.1) e.1
         else acc.name_lookup) := by
  simp only [populate_step]
  split_ifs <;> rfl

/-- One populate step preserves the lookup invariant. -/
theorem populate_step_inv {acc : ModelReference} (e : String × ModelRecord)
    (h : LookupInv acc) : LookupInv (populate_step acc e) := by
  intro x hx
  rw [populate_step_sd] at hx
  rw [populate_step_lookup]
  by_cases hb : e.2.baseline ∈ valid_baselines
  · rw [if_pos hb] at hx ⊢
    unfold setAdd at hx
    by_cases hmem : e.1 ∈ acc.stable_diffusion_names
    · rw [if_pos hmem] at hx
      exact dictGet_insert_isSome _ _ _ _ (h x hx)
    · rw [if_neg hmem] at hx
      rcases List.mem_cons.mp hx with he | hxs
      · subst he
        rw [dictGet_insert_self]
        rfl
      · exact dictGet_insert_isSome _ _ _ _ (h x hxs)
  · rw [if_neg hb] at hx ⊢
    exact h x hx

/-- The populate loop preserves the lookup invariant. -/
theorem foldl_populate_inv (models : List (String × ModelRecord)) :
    ∀ acc : ModelReference, LookupInv acc →
      LookupInv (models.foldl populate_step acc) := by
  induction models with
  | nil =>
    intro acc h
    exact h
  | cons e rest ih =>
    intro acc h
    exact ih _ (populate_step_inv e h)

/-- Any state built by `_populate_from_dict` satisfies the lookup invariant. -/
theorem populate_from_dict_inv (st : ModelReference)
    (models : List (String × ModelRecord)) :
    LookupInv (populate_from_dict st models) := by
  apply foldl_populate_inv
  intro x hx
  simp at hx

/-- Under the lookup invariant, `is_known_image_model` depends only on the
lowercase form of its argument. -/
theorem is_known_eq_lookup (st : ModelReference) (hinv : LookupInv st)
    (name : String) :
    is_known_image_model st name
      = (dictGet st.name_lookup (strLower name)).isSome := by
  unfold is_known_image_model normalize_model_name
  by_cases hmem : name ∈ st.stable_diffusion_names
  · rw [if_pos hmem]
    simp [hinv name hmem]
  · rw [if_neg hmem]

/-- C8: on any catalog snapshot built by `_populate_from_dict`, two model
names that differ only by letter case, one of which is registered, get the
same answer from `is_known_image_model`: the exact-match check is subsumed by
the precomputed lowercase-alias index. -/
theorem C8_case_insensitive (st0 : ModelReference)
    (models : List (String × ModelRecord)) (a b : String)
    (hcase : strLower a = strLower b)
    (_hreg : a ∈ (populate_from_dict st0 models).stable_diffusion_names
          ∨ b ∈ (populate_from_dict st0 models).stable_diffusion_names) :
    is_known_image_model (populate_from_dict st0 models) a
      = is_known_image_model (populate_from_dict st0 models) b := by
  have hinv := populate_from_dict_inv st0 models
  rw [is_known_eq_lookup _ hinv, is_known_eq_lookup _ hinv, hcase]

/-- Witness for C8 on a one-model catalog. -/
theorem C8_witness :
    is_known_image_model (populate_from_dict mr0 [("FLUX.1-dev", recA)]) "FLUX.1-dev"
      = is_known_image_model (populate_from_dict mr0 [("FLUX.1-dev", recA)]) "flux.1-dev"
    ∧ is_known_image_model (populate_from_dict mr0 [("FLUX.1-dev", recA)]) "flux.1-dev"
      = true := by
  constructor
  · exact C8_case_insensitive mr0 [("FLUX.1-dev", recA)] "FLUX.1-dev" "flux.1-dev"
      (by decide) (Or.inl (by decide))
  · decide

/-- C9: whenever the stuck count reaches the alert minimum and alerts are not
suppressed, exactly one stuck-jobs alert event is emitted and the exit code
signals threshold crossed (1); below the minimum no alert is emitted and the
exit code signals healthy (0). -/
theorem C9_monitor_alerts (now : Int) (jobs : List ProcessingGenRow) :
    (ALERT_THRESHOLD ≤ check_stuck_jobs now jobs →
        monitor_main now jobs false = (1, 1))
    ∧ (check_stuck_jobs now jobs < ALERT_THRESHOLD →
        ∀ no_alert : Bool, monitor_main now jobs no_alert = (0, 0)) := by
  constructor
  · intro h
    simp [monitor_main, h]
  · intro h no_alert
    have h' : ¬ ALERT_THRESHOLD ≤ check_stuck_jobs now jobs := Nat.not_le.mpr h
    simp [monitor_main, h']

/-- Store with six jobs past the stuck threshold, for the C9 scenario. -/
def stuckStore : List ProcessingGenRow :=
  [⟨"m1", 0⟩, ⟨"m1", 10⟩, ⟨"m1", 20⟩, ⟨"m2", 30⟩, ⟨"m2", 40⟩, ⟨"m3", 50⟩]

/-- Witness for C9: six stuck jobs with alert minimum five give exactly one
alert and exit code 1. -/
theorem C9_witness : monitor_main 700 stuckStore false = (1, 1) := by
  exact (C9_monitor_alerts 700 stuckStore).1 (by decide)
